import Mathlib

/-!
Verification of the WhipSmart outbound-call dialogue flow engine
(`agent_flow.py`, `bot.py`, `hubspot_api.py`) against its specification.

The Python code is shallowly embedded: the per-call mutable
`flow_manager.state` dictionary becomes the record `SessionState`; each
action handler becomes a pure function from its (optional) arguments and
the current state to the triple (acknowledgment text, new state, next
node or `none` for the "stay" sentinel); the external CRM collaborator
is abstracted as an oracle `CrmCall → Option String` telling, for each
attempted call, whether it raises (with which message); the external
retrieval (RAG) generation call is abstracted as its outcome
`Except String String`.
-/

namespace WhipSmart

/-- The tool/function schema `FlowsFunctionSchema` as built in the node
factories of `agent_flow.py`: the action's name, its required parameter
names, and its declared parameter names.  (Handlers are dispatched by
name, see `dispatch` below; the long natural-language descriptions are
irrelevant to the engine itself and omitted.) -/
structure FlowsFunctionSchema where
  name : String
  required : List String
  properties : List String
  deriving Repr, DecidableEq

/-- A conversation node (`NodeConfig` dict in `agent_flow.py`): its name,
its action set, and its post actions (`end_call` declares
`end_conversation`).  Message texts are prompt data for the LLM, not
consumed by the flow engine, and are omitted. -/
structure NodeConfig where
  name : String
  functions : List FlowsFunctionSchema
  post_actions : List String
  respond_immediately : Bool
  deriving Repr, DecidableEq

/-- The per-call session state: exactly the keys of `initial_state` in
`initialize_whipsmart_flow` (`agent_flow.py` lines 712-725).  Values that
Python initializes to `None` are `Option`s; `meeting_status` always holds
a string (initially `"Not Discussed"`). -/
structure SessionState where
  contact_id : Option String
  manager_name : Option String
  company_name : Option String
  current_provider : Option String
  meeting_status : String
  meeting_date : Option String
  meeting_time : Option String
  meeting_day_time : Option String
  email_address : Option String
  interested_in_novated_leasing : Bool
  send_summary_email : Bool
  has_existing_provider : Option Bool
  deriving Repr, DecidableEq

/-- `initial_state` of `initialize_whipsmart_flow` (`agent_flow.py`). -/
def initialState (cid : Option String) : SessionState :=
  { contact_id := cid
    manager_name := none
    company_name := none
    current_provider := none
    meeting_status := "Not Discussed"
    meeting_date := none
    meeting_time := none
    meeting_day_time := none
    email_address := none
    interested_in_novated_leasing := false
    send_summary_email := false
    has_existing_provider := none }

/-- Python truthiness of an optional string argument (`if meeting_date:`):
`None` and the empty string are falsy. -/
def pyTruthy : Option String → Bool
  | none => false
  | some s => !(s == "")

/-- `x if x else d` for an optional string argument `x`. -/
def pyStrOr (o : Option String) (d : String) : String :=
  match o with
  | none => d
  | some s => if s == "" then d else s

/-! ### CRM collaborator model

`hubspot_api.py` / `service.hubspot_service` expose `add_call_notes`,
`update_contact_lead_status` and `create_deal_for_contact`.  A CRM
interaction is modelled as the list of calls the code attempts, in
order; an oracle `CrmCall → Option String` says which call raises
(`some message`) - mirroring that a raised exception aborts the rest of
the `try` block. -/

/-- The `HUBSPOT_LEAD_STATUS` enum of `hubspot_api.py`. -/
inductive HUBSPOT_LEAD_STATUS where
  | NEW
  | OPEN
  | IN_PROGRESS
  | OPEN_DEAL
  | UNQUALIFIED
  | ATTEMPTED_TO_CONTACT
  | CONNECTED
  | BAD_TIMING
  deriving Repr, DecidableEq

/-- One attempted call against the CRM collaborator. -/
inductive CrmCall where
  | add_call_notes (contact_id : String) (notes : List (String × String))
  | update_contact_lead_status (contact_id : String) (status : HUBSPOT_LEAD_STATUS)
  | create_deal_for_contact (contact_id : String)
  deriving Repr, DecidableEq

/-- How Python renders an optional string when put in the notes dict
(`None` prints as `"None"`). -/
def pyShowOptStr : Option String → String
  | none => "None"
  | some v => v

/-- How Python renders a boolean in the notes dict. -/
def pyShowBool : Bool → String
  | true => "True"
  | false => "False"

/-- How Python renders an optional boolean in the notes dict. -/
def pyShowOptBool : Option Bool → String
  | none => "None"
  | some b => pyShowBool b

/-- The notes dict passed to `add_call_notes` by `finalize_and_update_crm`
(`agent_flow.py` lines 248-259): includes the separate date and time
fields as well as the combined one. -/
def finalizeCallNotes (s : SessionState) : List (String × String) :=
  [("Manager Name", pyShowOptStr s.manager_name),
   ("Company Name", pyShowOptStr s.company_name),
   ("Current Provider", pyShowOptStr s.current_provider),
   ("Meeting Status", s.meeting_status),
   ("Meeting Date", pyShowOptStr s.meeting_date),
   ("Meeting Time", pyShowOptStr s.meeting_time),
   ("Meeting Day/Time", pyShowOptStr s.meeting_day_time),
   ("Email Address", pyShowOptStr s.email_address),
   ("Interested", pyShowBool s.interested_in_novated_leasing),
   ("Has Existing Provider", pyShowOptBool s.has_existing_provider)]

/-- The notes dict passed to `add_call_notes` by the disconnect handler
(`bot.py` lines 234-243): only the combined day/time field. -/
def disconnectCallNotes (s : SessionState) : List (String × String) :=
  [("Manager Name", pyShowOptStr s.manager_name),
   ("Company Name", pyShowOptStr s.company_name),
   ("Current Provider", pyShowOptStr s.current_provider),
   ("Meeting Status", s.meeting_status),
   ("Meeting Day/Time", pyShowOptStr s.meeting_day_time),
   ("Email Address", pyShowOptStr s.email_address),
   ("Interested", pyShowBool s.interested_in_novated_leasing),
   ("Has Existing Provider", pyShowOptBool s.has_existing_provider)]

/-- The CRM calls `finalize_and_update_crm` attempts, in order
(`agent_flow.py` lines 248-266): call notes, then the lead-status update
(plus deal creation) chosen by `interested_in_novated_leasing`. -/
def finalizeCrmPlan (cid : String) (s : SessionState) : List CrmCall :=
  CrmCall.add_call_notes cid (finalizeCallNotes s) ::
    (if s.interested_in_novated_leasing then
      [CrmCall.update_contact_lead_status cid HUBSPOT_LEAD_STATUS.OPEN_DEAL,
       CrmCall.create_deal_for_contact cid]
    else
      [CrmCall.update_contact_lead_status cid HUBSPOT_LEAD_STATUS.CONNECTED])

/-- The CRM calls `on_client_disconnected` attempts, in order
(`bot.py` lines 234-250). -/
def disconnectCrmPlan (cid : String) (s : SessionState) : List CrmCall :=
  CrmCall.add_call_notes cid (disconnectCallNotes s) ::
    (if s.interested_in_novated_leasing then
      [CrmCall.update_contact_lead_status cid HUBSPOT_LEAD_STATUS.OPEN_DEAL,
       CrmCall.create_deal_for_contact cid]
    else
      [CrmCall.update_contact_lead_status cid HUBSPOT_LEAD_STATUS.CONNECTED])

/-- Attempt a list of CRM calls in order inside one `try` block: the
first call the oracle fails raises, so later calls are not attempted.
Returns (the calls actually attempted, the raised message if any). -/
def runCrmCalls (fail : CrmCall → Option String) :
    List CrmCall → List CrmCall × Option String
  | [] => ([], none)
  | c :: rest =>
    match fail c with
    | some e => ([c], some e)
    | none =>
      let r := runCrmCalls fail rest
      (c :: r.1, r.2)

/-! ### Node factories (`agent_flow.py` lines 298-684)

Each factory re-declares the globally available `query_knowledge_base`
schema; it is written once here. -/

/-- The `query_knowledge_base` schema declared in (almost) every node
factory. -/
def knowledge_base_func : FlowsFunctionSchema :=
  { name := "query_knowledge_base"
    required := ["question"]
    properties := ["question"] }

/-- `create_initial_greeting_node` (`agent_flow.py` line 298). -/
def create_initial_greeting_node : NodeConfig :=
  { name := "initial_greeting"
    functions :=
      [{ name := "capture_manager_details"
         required := ["manager_name", "company_name"]
         properties := ["manager_name", "company_name"] },
       knowledge_base_func]
    post_actions := []
    respond_immediately := true }

/-- `create_ask_provider_node` (`agent_flow.py` line 363). -/
def create_ask_provider_node : NodeConfig :=
  { name := "ask_provider"
    functions :=
      [{ name := "handle_has_provider_response"
         required := ["has_provider"]
         properties := ["has_provider"] },
       knowledge_base_func]
    post_actions := []
    respond_immediately := true }

/-- `create_ask_provider_name_node` (`agent_flow.py` line 407). -/
def create_ask_provider_name_node : NodeConfig :=
  { name := "ask_provider_name"
    functions :=
      [{ name := "capture_provider_name"
         required := ["provider_name"]
         properties := ["provider_name"] },
       knowledge_base_func]
    post_actions := []
    respond_immediately := true }

/-- `create_scenario_a_pitch_node` (`agent_flow.py` line 450). -/
def create_scenario_a_pitch_node : NodeConfig :=
  { name := "scenario_a_pitch"
    functions :=
      [{ name := "handle_meeting_response"
         required := ["accepts_meeting"]
         properties := ["accepts_meeting", "meeting_date", "meeting_time"] },
       knowledge_base_func]
    post_actions := []
    respond_immediately := true }

/-- `create_scenario_b_pitch_node` (`agent_flow.py` line 505). -/
def create_scenario_b_pitch_node : NodeConfig :=
  { name := "scenario_b_pitch"
    functions :=
      [{ name := "handle_meeting_response"
         required := ["accepts_meeting"]
         properties := ["accepts_meeting", "meeting_date", "meeting_time"] },
       knowledge_base_func]
    post_actions := []
    respond_immediately := true }

/-- `create_offer_email_summary_node` (`agent_flow.py` line 560). -/
def create_offer_email_summary_node : NodeConfig :=
  { name := "offer_email_summary"
    functions :=
      [{ name := "handle_email_summary_response"
         required := ["wants_summary"]
         properties := ["wants_summary"] },
       knowledge_base_func]
    post_actions := []
    respond_immediately := true }

/-- `create_collect_email_node` (`agent_flow.py` line 604).  The
`for_meeting` flag only changes the prompt wording (`purpose`), not the
name, action set or post actions. -/
def create_collect_email_node (_for_meeting : Bool) : NodeConfig :=
  { name := "collect_email"
    functions :=
      [{ name := "capture_email_address"
         required := ["email"]
         properties := ["email"] },
       knowledge_base_func]
    post_actions := []
    respond_immediately := true }

/-- `create_end_call_node` (`agent_flow.py` line 653): its only action is
the finalize action, and it declares the `end_conversation` post action. -/
def create_end_call_node : NodeConfig :=
  { name := "end_call"
    functions :=
      [{ name := "finalize_and_update_crm"
         required := []
         properties := [] }]
    post_actions := ["end_conversation"]
    respond_immediately := true }

/-- The nodes any run of the flow can ever install as current. -/
def allNodes : List NodeConfig :=
  [create_initial_greeting_node, create_ask_provider_node,
   create_ask_provider_name_node, create_scenario_a_pitch_node,
   create_scenario_b_pitch_node, create_offer_email_summary_node,
   create_collect_email_node true, create_collect_email_node false,
   create_end_call_node]

/-! ### Action handlers (`agent_flow.py` lines 18-272)

Each handler takes its tool-call arguments (`none` models a key absent
from `args`, so `args.get(k, d)` is `Option.getD · d`) and the current
state, and returns (acknowledgment, new state, next node or `none` for
the "stay" sentinel). -/

/-- `capture_manager_details` (`agent_flow.py` lines 18-37). -/
def capture_manager_details (manager_name company_name : Option String)
    (s : SessionState) : String × SessionState × Option NodeConfig :=
  let mn := manager_name.getD "Not provided"
  let cn := company_name.getD "Not provided"
  ("Lovely to speak with you, " ++ mn ++ "!",
   { s with manager_name := some mn, company_name := some cn },
   some create_ask_provider_node)

/-- `handle_has_provider_response` (`agent_flow.py` lines 40-60). -/
def handle_has_provider_response (has_provider : Option Bool)
    (s : SessionState) : String × SessionState × Option NodeConfig :=
  let hp := has_provider.getD false
  let s1 := { s with has_existing_provider := some hp }
  if hp then
    ("Right, I see.", s1, some create_ask_provider_name_node)
  else
    ("No worries, I understand.",
     { s1 with current_provider := some "None" },
     some create_scenario_b_pitch_node)

/-- `capture_provider_name` (`agent_flow.py` lines 63-78). -/
def capture_provider_name (provider_name : Option String)
    (s : SessionState) : String × SessionState × Option NodeConfig :=
  let pn := provider_name.getD "Not specified"
  ("Thanks for that. " ++ pn ++ " is a solid choice.",
   { s with current_provider := some pn },
   some create_scenario_a_pitch_node)

/-- `query_knowledge_base` (`agent_flow.py` lines 81-139).  The external
generation request (built from the question and the last three non-tool
conversation turns) is abstracted as its outcome `rag`: `Except.ok text`
when `generate_content` returns, `Except.error e` when it raises, in
which case the fixed apologetic fallback is returned.  Either way the
handler reads but never writes the state and returns the `none`
("stay") transition. -/
def query_knowledge_base (_question : Option String)
    (rag : Except String String) (s : SessionState) :
    String × SessionState × Option NodeConfig :=
  match rag with
  | Except.ok text => (text, s, none)
  | Except.error _ =>
    ("Sorry mate, I\x27m having a bit of trouble accessing that information right now. Let me continue with our chat about WhipSmart\x27s novated leasing program.",
     s, none)

/-- Folding any number of `query_knowledge_base` invocations (each with
its own question and external outcome) over the state. -/
def applyKnowledgeBaseQueries
    (qs : List (Option String × Except String String))
    (s : SessionState) : SessionState :=
  qs.foldl (fun st q => (query_knowledge_base q.1 q.2 st).2.1) s

/-- `handle_meeting_response` (`agent_flow.py` lines 142-184). -/
def handle_meeting_response (accepts_meeting : Option Bool)
    (meeting_date meeting_time : Option String) (s : SessionState) :
    String × SessionState × Option NodeConfig :=
  if accepts_meeting.getD false then
    ("Brilliant! I\x27ll get that sorted for you.",
     { s with
        meeting_status := "Interested - To Be Scheduled"
        meeting_date := some (pyStrOr meeting_date "To be confirmed")
        meeting_time := some (pyStrOr meeting_time "To be confirmed")
        meeting_day_time := some
          (if pyTruthy meeting_date && pyTruthy meeting_time then
            meeting_date.getD "" ++ " at " ++ meeting_time.getD ""
          else if pyTruthy meeting_date then
            meeting_date.getD ""
          else
            "To be confirmed")
        interested_in_novated_leasing := true },
     some (create_collect_email_node true))
  else
    ("No worries at all, mate.",
     { s with
        meeting_status := "Declined"
        interested_in_novated_leasing := false },
     some create_offer_email_summary_node)

/-- `handle_email_summary_response` (`agent_flow.py` lines 187-207). -/
def handle_email_summary_response (wants_summary : Option Bool)
    (s : SessionState) : String × SessionState × Option NodeConfig :=
  if wants_summary.getD false then
    ("Ripper!",
     { s with send_summary_email := true },
     some (create_collect_email_node false))
  else
    ("Fair enough, I completely understand.",
     { s with
        send_summary_email := false
        interested_in_novated_leasing := false },
     some create_end_call_node)

/-- `capture_email_address` (`agent_flow.py` lines 210-228).
`log_lead_data` only logs; it reads no argument and writes nothing. -/
def capture_email_address (email : Option String) (s : SessionState) :
    String × SessionState × Option NodeConfig :=
  let em := email.getD "Not provided"
  ("Perfect, I\x27ve got that down as " ++ em ++ ".",
   { s with email_address := some em },
   some create_end_call_node)

/-- `finalize_and_update_crm` (`agent_flow.py` lines 231-272): when a
contact id is present, attempt the CRM plan inside a `try` block whose
`except` merely logs; the handler returns the same acknowledgment, the
unchanged state and the "stay" sentinel whether the CRM calls succeed
or raise.  The second component records which CRM calls were attempted
(the side effect). -/
def finalize_and_update_crm (fail : CrmCall → Option String)
    (s : SessionState) :
    (String × SessionState × Option NodeConfig) × List CrmCall :=
  match s.contact_id with
  | none => (("Cheers for your time!", s, none), [])
  | some cid =>
    let r := runCrmCalls fail (finalizeCrmPlan cid s)
    match r.2 with
    | some _ => (("Cheers for your time!", s, none), r.1)
    | none => (("Cheers for your time!", s, none), r.1)

/-- The `on_client_disconnected` transport hook (`bot.py` lines 225-254):
reads the flow state and attempts the disconnect CRM plan inside a
`try` block whose `except` merely logs; returns the CRM calls attempted.
(The `finally` block cancels the pipeline task; it touches no session
state.) -/
def on_client_disconnected (fail : CrmCall → Option String)
    (contactId : String) (s : SessionState) : List CrmCall :=
  (runCrmCalls fail (disconnectCrmPlan contactId s)).1

/-! ### Dispatch and reachability -/

/-- A model tool call: which handler is invoked and with which arguments
(including, for the two effectful handlers, the abstracted outcomes of
their external collaborators). -/
inductive ActionCall where
  | captureManagerDetails (manager_name company_name : Option String)
  | handleHasProviderResponse (has_provider : Option Bool)
  | captureProviderName (provider_name : Option String)
  | queryKnowledgeBase (question : Option String) (rag : Except String String)
  | handleMeetingResponse (accepts_meeting : Option Bool)
      (meeting_date meeting_time : Option String)
  | handleEmailSummaryResponse (wants_summary : Option Bool)
  | captureEmailAddress (email : Option String)
  | finalizeAndUpdateCrm (fail : CrmCall → Option String)

/-- The tool name an `ActionCall` invokes, as the node factories declare
it. -/
def ActionCall.fname : ActionCall → String
  | .captureManagerDetails _ _ => "capture_manager_details"
  | .handleHasProviderResponse _ => "handle_has_provider_response"
  | .captureProviderName _ => "capture_provider_name"
  | .queryKnowledgeBase _ _ => "query_knowledge_base"
  | .handleMeetingResponse _ _ _ => "handle_meeting_response"
  | .handleEmailSummaryResponse _ => "handle_email_summary_response"
  | .captureEmailAddress _ => "capture_email_address"
  | .finalizeAndUpdateCrm _ => "finalize_and_update_crm"

/-- Dispatch a tool call to its handler. -/
def dispatch (c : ActionCall) (s : SessionState) :
    String × SessionState × Option NodeConfig :=
  match c with
  | .captureManagerDetails mn cn => capture_manager_details mn cn s
  | .handleHasProviderResponse hp => handle_has_provider_response hp s
  | .captureProviderName pn => capture_provider_name pn s
  | .queryKnowledgeBase q rag => query_knowledge_base q rag s
  | .handleMeetingResponse a d t => handle_meeting_response a d t s
  | .handleEmailSummaryResponse w => handle_email_summary_response w s
  | .captureEmailAddress e => capture_email_address e s
  | .finalizeAndUpdateCrm fail => (finalize_and_update_crm fail s).1

/-- Graph-respecting reachability: the flow starts at the initial
greeting node with the initial state; a step invokes an action declared
in the current node's action set, installing the returned node (or
staying put on the `none` sentinel). -/
inductive Reachable : NodeConfig → SessionState → Prop where
  | init (cid : Option String) :
      Reachable create_initial_greeting_node (initialState cid)
  | step {n : NodeConfig} {s : SessionState} (c : ActionCall)
      (h : Reachable n s)
      (hmem : c.fname ∈ n.functions.map FlowsFunctionSchema.name) :
      Reachable (((dispatch c s).2.2).getD n) (dispatch c s).2.1

/-- The inductive invariant carried through `Reachable`: the current node
is one of the factory nodes; `InterestedToSchedule` implies the
interested flag; and at the email-summary offer the meeting was
declined, so the interested flag is already down. -/
def NodeInv (n : NodeConfig) (s : SessionState) : Prop :=
  n ∈ allNodes
  ∧ (s.meeting_status = "Interested - To Be Scheduled" →
      s.interested_in_novated_leasing = true)
  ∧ (n.name = "offer_email_summary" →
      s.meeting_status = "Declined"
      ∧ s.interested_in_novated_leasing = false)

/-! ### A concrete run, for the closed witnesses

Scenario A up to the pitch, then either accepting the meeting or
declining it.  `wN3`/`wS3` is the shared prefix ending at the
scenario-A pitch node. -/

/-- The CRM oracle on which every call succeeds. -/
def noCrmFailure : CrmCall → Option String := fun _ => none

def w0 : SessionState := initialState (some "hs-101")

def wC1 : ActionCall := ActionCall.captureManagerDetails (some "Sam") (some "Acme")

def wS1 : SessionState := (dispatch wC1 w0).2.1

def wN1 : NodeConfig := ((dispatch wC1 w0).2.2).getD create_initial_greeting_node

def wC2 : ActionCall := ActionCall.handleHasProviderResponse (some true)

def wS2 : SessionState := (dispatch wC2 wS1).2.1

def wN2 : NodeConfig := ((dispatch wC2 wS1).2.2).getD wN1

def wC3 : ActionCall := ActionCall.captureProviderName (some "Fleetcare")

def wS3 : SessionState := (dispatch wC3 wS2).2.1

def wN3 : NodeConfig := ((dispatch wC3 wS2).2.2).getD wN2

def wCAccept : ActionCall :=
  ActionCall.handleMeetingResponse (some true) (some "next Tuesday") (some "10am")

def wSAccept : SessionState := (dispatch wCAccept wS3).2.1

def wNAccept : NodeConfig := ((dispatch wCAccept wS3).2.2).getD wN3

def wCDecline : ActionCall := ActionCall.handleMeetingResponse (some false) none none

def wSDecline : SessionState := (dispatch wCDecline wS3).2.1

def wNDecline : NodeConfig := ((dispatch wCDecline wS3).2.2).getD wN3

def wCSummaryDecline : ActionCall :=
  ActionCall.handleEmailSummaryResponse (some false)

/-- The final session state of the decline run, at the EndCall node. -/
def wSEnd : SessionState := (dispatch wCSummaryDecline wSDecline).2.1

end WhipSmart

namespace WhipSmart

/-! ### Theorems -/

/-- `finalize_and_update_crm` returns the same success triple - fixed
acknowledgment, unchanged state, "stay" sentinel - whatever the CRM
oracle does. -/
theorem finalize_result_eq (fail : CrmCall → Option String)
    (s : SessionState) :
    (finalize_and_update_crm fail s).1 = ("Cheers for your time!", s, none) := by
  unfold finalize_and_update_crm
  rcases hc : s.contact_id with _ | cid
  · rfl
  · dsimp only
    rcases h2 : (runCrmCalls fail (finalizeCrmPlan cid s)).2 with _ | e <;>
      simp [h2]

/-- The inductive invariant holds in every reachable configuration. -/
theorem reachable_inv {n : NodeConfig} {s : SessionState}
    (h : Reachable n s) : NodeInv n s := by
  induction h with
  | init cid =>
    refine ⟨by simp [allNodes], ?_, ?_⟩ <;>
      simp [initialState, create_initial_greeting_node]
  | step c h hmem ih =>
    obtain ⟨hmemN, himp, hoffer⟩ := ih
    rename_i n s
    cases c with
    | captureManagerDetails mn cn =>
      simp only [dispatch, capture_manager_details, Option.getD_some]
      refine ⟨by simp [allNodes], fun hms => himp hms, ?_⟩
      intro hname
      simp [create_ask_provider_node] at hname
    | handleHasProviderResponse hp =>
      rcases hb : hp.getD false with _ | _ <;>
        simp only [dispatch, handle_has_provider_response, hb, if_true,
          if_false, Bool.false_eq_true, Option.getD_some, ite_true, ite_false]
      · refine ⟨by simp [allNodes], fun hms => himp hms, ?_⟩
        intro hname
        simp [create_scenario_b_pitch_node] at hname
      · refine ⟨by simp [allNodes], fun hms => himp hms, ?_⟩
        intro hname
        simp [create_ask_provider_name_node] at hname
    | captureProviderName pn =>
      simp only [dispatch, capture_provider_name, Option.getD_some]
      refine ⟨by simp [allNodes], fun hms => himp hms, ?_⟩
      intro hname
      simp [create_scenario_a_pitch_node] at hname
    | queryKnowledgeBase q rag =>
      rcases rag with e | t <;> exact ⟨hmemN, himp, hoffer⟩
    | handleMeetingResponse a d t =>
      rcases hb : a.getD false with _ | _ <;>
        simp only [dispatch, handle_meeting_response, hb, if_true, if_false,
          Bool.false_eq_true, Option.getD_some, ite_true, ite_false]
      · -- declined: status = "Declined", interested = false
        refine ⟨by simp [allNodes], ?_, ?_⟩
        · intro hms
          simp at hms
        · intro _
          exact ⟨rfl, rfl⟩
      · -- accepted: status = InterestedToSchedule, interested := true
        refine ⟨by simp [allNodes], fun _ => rfl, ?_⟩
        intro hname
        simp [create_collect_email_node] at hname
    | handleEmailSummaryResponse w =>
      simp only [ActionCall.fname] at hmem
      have hname : n.name = "offer_email_summary" := by
        simp only [allNodes, List.mem_cons, List.not_mem_nil, or_false] at hmemN
        rcases hmemN with rfl | rfl | rfl | rfl | rfl | rfl | rfl | rfl | rfl <;>
          first
            | rfl
            | (exfalso; revert hmem; decide)
      obtain ⟨hms, hint⟩ := hoffer hname
      rcases hb : w.getD false with _ | _ <;>
        simp only [dispatch, handle_email_summary_response, hb, if_true,
          if_false, Bool.false_eq_true, Option.getD_some, ite_true, ite_false]
      · refine ⟨by simp [allNodes], ?_, ?_⟩
        · intro hms2
          simp [hms] at hms2
        · intro hname2
          simp [create_end_call_node] at hname2
      · refine ⟨by simp [allNodes], ?_, ?_⟩
        · intro hms2
          simp [hms] at hms2
        · intro hname2
          simp [create_collect_email_node] at hname2
    | captureEmailAddress e =>
      simp only [dispatch, capture_email_address, Option.getD_some]
      refine ⟨by simp [allNodes], fun hms => himp hms, ?_⟩
      intro hname
      simp [create_end_call_node] at hname
    | finalizeAndUpdateCrm fail =>
      have hd : dispatch (ActionCall.finalizeAndUpdateCrm fail) s =
          ("Cheers for your time!", s, none) := finalize_result_eq fail s
      rw [hd]
      exact ⟨hmemN, himp, hoffer⟩

/-! Reachability of the concrete run. -/

theorem reach_w1 : Reachable wN1 wS1 :=
  Reachable.step wC1 (Reachable.init (some "hs-101")) (by decide)

theorem reach_w2 : Reachable wN2 wS2 :=
  Reachable.step wC2 reach_w1 (by decide)

theorem reach_w3 : Reachable wN3 wS3 :=
  Reachable.step wC3 reach_w2 (by decide)

theorem reach_wAccept : Reachable wNAccept wSAccept :=
  Reachable.step wCAccept reach_w3 (by decide)

theorem reach_wDecline : Reachable wNDecline wSDecline :=
  Reachable.step wCDecline reach_w3 (by decide)

/-! Claim theorems. -/

/-- C6: in every session state reachable from initialization by
graph-respecting handler invocations, `meeting_status =
"Interested - To Be Scheduled"` implies
`interested_in_novated_leasing = true` (and, being stated over all
reachable configurations, every handler preserves this implication). -/
theorem interested_invariant {n : NodeConfig} {s : SessionState}
    (h : Reachable n s)
    (hm : s.meeting_status = "Interested - To Be Scheduled") :
    s.interested_in_novated_leasing = true :=
  (reachable_inv h).2.1 hm

/-- C6 witness: a concrete reachable state whose meeting status is
`InterestedToSchedule` indeed has the interested flag set. -/
theorem interested_invariant_witness :
    wSAccept.interested_in_novated_leasing = true :=
  interested_invariant reach_wAccept (by decide)

/-- C7: at any reachable configuration whose current node is the
email-summary offer, declining the summary (`wants_summary = false`)
leaves `interested_in_novated_leasing` exactly as the meeting branch
left it (the forced `false` write is a no-op there), sets
`send_summary_email := false`, and transitions to the EndCall node. -/
theorem email_decline_preserves_interested {n : NodeConfig}
    {s : SessionState} (h : Reachable n s)
    (hn : n.name = "offer_email_summary") :
    (handle_email_summary_response (some false) s).2.1.interested_in_novated_leasing
      = s.interested_in_novated_leasing
    ∧ (handle_email_summary_response (some false) s).2.1.send_summary_email = false
    ∧ (handle_email_summary_response (some false) s).2.2 = some create_end_call_node := by
  obtain ⟨-, -, hoffer⟩ := reachable_inv h
  obtain ⟨hms, hint⟩ := hoffer hn
  exact ⟨by rw [hint]; rfl, rfl, rfl⟩

/-- C7 witness: the concrete run that declines the meeting reaches the
email-summary offer; declining the summary there keeps the interested
flag at its prior value, clears the summary flag, and moves to EndCall. -/
theorem email_decline_preserves_interested_witness :
    (handle_email_summary_response (some false) wSDecline).2.1.interested_in_novated_leasing
      = wSDecline.interested_in_novated_leasing
    ∧ (handle_email_summary_response (some false) wSDecline).2.1.send_summary_email = false
    ∧ (handle_email_summary_response (some false) wSDecline).2.2 = some create_end_call_node :=
  email_decline_preserves_interested reach_wDecline (by decide)

/-- C2 counterexample: the EndCall node's action set does NOT contain the
`query_knowledge_base` action - its only action is the finalize action -
so the claim "every node of the eight-node graph carries the
query-knowledge-base action" fails at EndCall. -/
theorem end_call_lacks_knowledge_base :
    ¬ ("query_knowledge_base" ∈
        create_end_call_node.functions.map FlowsFunctionSchema.name) := by
  decide

/-- C2 amended: every node of the graph EXCEPT EndCall carries the
`query_knowledge_base` action; EndCall's action set is exactly the
finalize action. -/
theorem knowledge_base_on_all_non_terminal_nodes :
    "query_knowledge_base" ∈
      create_initial_greeting_node.functions.map FlowsFunctionSchema.name
    ∧ "query_knowledge_base" ∈
      create_ask_provider_node.functions.map FlowsFunctionSchema.name
    ∧ "query_knowledge_base" ∈
      create_ask_provider_name_node.functions.map FlowsFunctionSchema.name
    ∧ "query_knowledge_base" ∈
      create_scenario_a_pitch_node.functions.map FlowsFunctionSchema.name
    ∧ "query_knowledge_base" ∈
      create_scenario_b_pitch_node.functions.map FlowsFunctionSchema.name
    ∧ "query_knowledge_base" ∈
      create_offer_email_summary_node.functions.map FlowsFunctionSchema.name
    ∧ "query_knowledge_base" ∈
      (create_collect_email_node true).functions.map FlowsFunctionSchema.name
    ∧ "query_knowledge_base" ∈
      (create_collect_email_node false).functions.map FlowsFunctionSchema.name
    ∧ create_end_call_node.functions.map FlowsFunctionSchema.name
      = ["finalize_and_update_crm"] := by
  decide

/-- C3 counterexample: after `record-has-provider(false)` the
current-provider sentinel stored by the code is not the spec's
lowercase `"none"` (the code stores `"None"`). -/
theorem has_provider_false_not_lowercase_none :
    ¬ ((handle_has_provider_response (some false) (initialState none)).2.1.current_provider
        = some "none") := by
  decide

/-- C3 amended: `handle_has_provider_response` with `has_provider =
false` sets the flag to `false`, sets `current_provider` to the
capitalized sentinel `"None"`, and transitions to the ScenarioBPitch
node; with `has_provider = true` it sets the flag, leaves
`current_provider` unchanged, and transitions to the AskProviderName
node. -/
theorem has_provider_response_behavior (s : SessionState) :
    handle_has_provider_response (some false) s =
      ("No worries, I understand.",
       { s with has_existing_provider := some false,
                current_provider := some "None" },
       some create_scenario_b_pitch_node)
    ∧ handle_has_provider_response (some true) s =
      ("Right, I see.",
       { s with has_existing_provider := some true },
       some create_ask_provider_name_node) :=
  ⟨rfl, rfl⟩

/-- C4: accepting the meeting with neither a date nor a time argument
stores the `"To be confirmed"` sentinel in the date, time, and combined
date-time fields. -/
theorem meeting_accept_default_sentinels (s : SessionState) :
    (handle_meeting_response (some true) none none s).2.1.meeting_date
      = some "To be confirmed"
    ∧ (handle_meeting_response (some true) none none s).2.1.meeting_time
      = some "To be confirmed"
    ∧ (handle_meeting_response (some true) none none s).2.1.meeting_day_time
      = some "To be confirmed" :=
  ⟨rfl, rfl, rfl⟩

/-- C5: on both teardown paths the CRM plan carries the open-deal status
update and the deal-creation request exactly when the interested flag
is set, and the connected status update exactly when it is not; and the
status part of the plan (everything after the call-notes entry) is a
function of the interested flag alone, so equal flags give equal status
calls whatever the meeting or email sub-outcome was. -/
theorem crm_status_mapping (cid : String) (s s2 : SessionState) :
    (CrmCall.update_contact_lead_status cid HUBSPOT_LEAD_STATUS.OPEN_DEAL
        ∈ finalizeCrmPlan cid s ↔ s.interested_in_novated_leasing = true)
    ∧ (CrmCall.create_deal_for_contact cid ∈ finalizeCrmPlan cid s
        ↔ s.interested_in_novated_leasing = true)
    ∧ (CrmCall.update_contact_lead_status cid HUBSPOT_LEAD_STATUS.CONNECTED
        ∈ finalizeCrmPlan cid s ↔ s.interested_in_novated_leasing = false)
    ∧ (CrmCall.update_contact_lead_status cid HUBSPOT_LEAD_STATUS.OPEN_DEAL
        ∈ disconnectCrmPlan cid s ↔ s.interested_in_novated_leasing = true)
    ∧ (CrmCall.create_deal_for_contact cid ∈ disconnectCrmPlan cid s
        ↔ s.interested_in_novated_leasing = true)
    ∧ (CrmCall.update_contact_lead_status cid HUBSPOT_LEAD_STATUS.CONNECTED
        ∈ disconnectCrmPlan cid s ↔ s.interested_in_novated_leasing = false)
    ∧ (s.interested_in_novated_leasing = s2.interested_in_novated_leasing →
        (finalizeCrmPlan cid s).drop 1 = (finalizeCrmPlan cid s2).drop 1
        ∧ (disconnectCrmPlan cid s).drop 1 = (disconnectCrmPlan cid s2).drop 1) := by
  cases hi : s.interested_in_novated_leasing <;>
    cases hi2 : s2.interested_in_novated_leasing <;>
      simp [finalizeCrmPlan, disconnectCrmPlan, hi, hi2]

/-- C8: `query_knowledge_base` - whatever the question and whatever the
external retrieval call does - returns the "stay" sentinel and leaves
the session state untouched, and therefore any number of invocations in
sequence leaves the state exactly where it started. -/
theorem knowledge_base_pure (question : Option String)
    (rag : Except String String) (s : SessionState)
    (qs : List (Option String × Except String String)) :
    (query_knowledge_base question rag s).2.1 = s
    ∧ (query_knowledge_base question rag s).2.2 = none
    ∧ applyKnowledgeBaseQueries qs s = s := by
  refine ⟨?_, ?_, ?_⟩
  · cases rag <;> rfl
  · cases rag <;> rfl
  · induction qs generalizing s with
    | nil => rfl
    | cons q rest ih =>
      have h1 : (query_knowledge_base q.1 q.2 s).2.1 = s := by
        cases hq : q.2 <;> simp [query_knowledge_base, hq]
      show applyKnowledgeBaseQueries rest ((query_knowledge_base q.1 q.2 s).2.1) = s
      rw [h1]
      exact ih s

/-- C9: whatever the CRM collaborator does - including raising on any of
the attempted calls - `finalize_and_update_crm` returns its normal
success acknowledgment with the "stay" sentinel and the session state
unchanged; no error reaches the caller. -/
theorem finalize_swallows_crm_failures (fail : CrmCall → Option String)
    (s : SessionState) :
    (finalize_and_update_crm fail s).1 = ("Cheers for your time!", s, none) :=
  finalize_result_eq fail s

/-- C10: accepting the meeting with a time but no date stores the time in
the meeting-time field yet stores the `"To be confirmed"` sentinel in
the combined field (the time never appears there without a date); with
a date but no time the combined field is the date alone. -/
theorem meeting_partial_datetime_law (s : SessionState) (d t : String)
    (hd : d ≠ "") (ht : t ≠ "") :
    ((handle_meeting_response (some true) none (some t) s).2.1.meeting_time = some t
     ∧ (handle_meeting_response (some true) none (some t) s).2.1.meeting_day_time
        = some "To be confirmed")
    ∧ (handle_meeting_response (some true) (some d) none s).2.1.meeting_day_time
        = some d := by
  refine ⟨⟨?_, rfl⟩, ?_⟩
  · simp [handle_meeting_response, pyStrOr, ht]
  · simp [handle_meeting_response, pyTruthy, hd]

/-- C10 witness: the law at the concrete inputs `"10am"` (time only) and
`"next Tuesday"` (date only). -/
theorem meeting_partial_datetime_law_witness :
    ((handle_meeting_response (some true) none (some "10am") (initialState none)).2.1.meeting_time
        = some "10am"
     ∧ (handle_meeting_response (some true) none (some "10am") (initialState none)).2.1.meeting_day_time
        = some "To be confirmed")
    ∧ (handle_meeting_response (some true) (some "next Tuesday") none (initialState none)).2.1.meeting_day_time
        = some "next Tuesday" :=
  meeting_partial_datetime_law (initialState none) "next Tuesday" "10am"
    (by decide) (by decide)

/-- C1: there is no double-teardown guard.  At the final state of the
concrete decline run (contact id present, every CRM call succeeding),
the EndCall finalize path pushes a nonempty batch of CRM calls AND the
transport-disconnect path pushes another nonempty batch: firing the
teardown twice performs two CRM syncs, the second invocation is not a
no-op. -/
theorem double_teardown_two_syncs :
    (finalize_and_update_crm noCrmFailure wSEnd).2 ≠ []
    ∧ on_client_disconnected noCrmFailure "hs-101" wSEnd ≠ [] := by
  decide

end WhipSmart
